import Mathlib

/-!
Shallow embedding of the BenchTalk-API core (src/src/api_versions/v1):
the swipe/match engine and the meeting-point suggestion pipeline of
`crud.py` (class `DatabaseManager`) and `bench_finder.py`
(class `OpenStreetMapService`).

The database is modelled as an explicit state record (`DB`); each
`DatabaseManager` method becomes a function from the state to a new
state plus its return value.  SQLAlchemy `query(...).first()` becomes
`List.find?` over the rows in insertion order, and `commit` of an
attribute update becomes a functional update of the matching row.
Sessions are created with `autoflush=False`, so queries issued during a
method see the rows present when the method began; pending `db.add`
calls become visible only at the final `commit`.  The model reflects
this by checking existence against the state at entry and appending all
new rows at the end.

Geometry: `_haversine` and `_calculate_search_zone` are modelled over
`ℝ` with `Real.sin`/`Real.cos`/`Real.arcsin`/`Real.sqrt`.  The ranking
pipeline `_rank_benches` is modelled over `ℚ` and takes the distance
function as an explicit parameter (in the source it is the call
`cls._haversine`); the claims settled with it concern only the
discrete pipeline around the distance values: Python-truthiness
coordinate resolution, rounding to 3/6 decimal places, and the stable
sort on the `'score'` field.
-/

namespace BenchTalk

/-- Row of table `swipes` (schemas.Swipe); only the columns the engine
reads are modelled. -/
structure Swipe where
  from_user_id : Nat
  to_user_id : Nat
  type : String
deriving DecidableEq, Repr

/-- Row of table `matches` (schemas.Match). -/
structure Match where
  id : Nat
  user_one_id : Nat
  user_two_id : Nat
  is_active : Bool
deriving DecidableEq, Repr

/-- Row of table `meeting_benches` (schemas.MeetingBench); only the
columns the suggestion/acceptance logic reads are modelled. -/
structure MeetingBench where
  id : Nat
  match_id : Nat
  osm_id : String
  is_accepted : Bool
deriving DecidableEq, Repr

/-- The persistent state seen by `DatabaseManager`, with the
autoincrement counters for the primary keys that the model uses. -/
structure DB where
  swipes : List Swipe
  «matches» : List Match
  benches : List MeetingBench
  next_match_id : Nat
  next_bench_id : Nat
deriving DecidableEq, Repr

/-- Model of `DatabaseManager.get_match_between_users(user_id, match_id)`:
despite its name it looks up a match row by primary key `match_id`,
requiring it to be active and to involve `user_id`. -/
def get_match_between_users (db : DB) (user_id match_id : Nat) : Option Match :=
  db.«matches».find? fun m =>
    m.id == match_id && m.is_active && (m.user_one_id == user_id || m.user_two_id == user_id)

/-- Model of `existing.type = swipe_type; db.commit()`: update the first row with
the given (from, to) pair. -/
def setSwipeType : List Swipe → Nat → Nat → String → List Swipe
  | [], _, _, _ => []
  | s :: rest, f, t, ty =>
    if s.from_user_id == f && s.to_user_id == t then { s with type := ty } :: rest
    else s :: setSwipeType rest f t ty

/-- Model of `match_obj.is_active = False; db.commit()`: deactivate the row with
the given primary key. -/
def deactivateMatch : List Match → Nat → List Match
  | [], _ => []
  | m :: rest, mid =>
    if m.id == mid then { m with is_active := false } :: rest
    else m :: deactivateMatch rest mid

/-- Second half of `DatabaseManager.create_swipe`: the mutual-like /
dislike handling that runs after the swipe row has been recorded. -/
def create_swipe_matchPhase (db : DB) (new_swipe : Swipe) (from_user_id to_user_id : Nat)
    (swipe_type : String) : DB × Swipe × Option Match :=
  if swipe_type == "like" then
    match db.swipes.find? (fun s =>
        s.from_user_id == to_user_id && s.to_user_id == from_user_id && s.type == "like") with
    | some _ =>
      match get_match_between_users db from_user_id to_user_id with
      | some m => (db, new_swipe, some m)
      | none =>
        let user_one := min from_user_id to_user_id
        let user_two := max from_user_id to_user_id
        let m : Match := ⟨db.next_match_id, user_one, user_two, true⟩
        ({ db with «matches» := db.«matches» ++ [m], next_match_id := db.next_match_id + 1 },
          new_swipe, some m)
    | none => (db, new_swipe, none)
  else if swipe_type == "dislike" then
    match get_match_between_users db from_user_id to_user_id with
    | some m =>
      ({ db with «matches» := deactivateMatch db.«matches» m.id }, new_swipe, none)
    | none => (db, new_swipe, none)
  else (db, new_swipe, none)

/-- Model of `DatabaseManager.create_swipe`.  When a swipe with the same
disposition already exists the method returns early (`return existing,
None`) without running the match phase; otherwise the swipe row is
recorded (overwrite or insert) and the match phase runs.  Note that the
match phase calls `get_match_between_users(from_user_id, to_user_id)`,
i.e. it passes `to_user_id` in the `match_id` position. -/
def create_swipe (db : DB) (from_user_id to_user_id : Nat) (swipe_type : String) :
    DB × Swipe × Option Match :=
  match db.swipes.find? (fun s =>
      s.from_user_id == from_user_id && s.to_user_id == to_user_id) with
  | some existing =>
    if existing.type == swipe_type then
      (db, existing, none)
    else
      let db1 : DB := { db with swipes := setSwipeType db.swipes from_user_id to_user_id swipe_type }
      create_swipe_matchPhase db1 { existing with type := swipe_type }
        from_user_id to_user_id swipe_type
  | none =>
    let s : Swipe := ⟨from_user_id, to_user_id, swipe_type⟩
    let db1 : DB := { db with swipes := db.swipes ++ [s] }
    create_swipe_matchPhase db1 s from_user_id to_user_id swipe_type

/-- Model of `DatabaseManager.unmatch`: deactivates the row for the canonical
pair (lookup ignores `is_active`). -/
def unmatch (db : DB) (user_id other_user_id : Nat) : DB × Bool :=
  let user_min := min user_id other_user_id
  let user_max := max user_id other_user_id
  match db.«matches».find? (fun m => m.user_one_id == user_min && m.user_two_id == user_max) with
  | some m => ({ db with «matches» := deactivateMatch db.«matches» m.id }, true)
  | none => (db, false)

/-- Model of `bench.is_accepted = True; db.commit()` on the first row with the
given primary key and match id (the `filter_by(id=bench_id,
match_id=match_id).first()` query), reporting whether a row was found. -/
def markAccepted : List MeetingBench → Nat → Nat → List MeetingBench × Bool
  | [], _, _ => ([], false)
  | b :: rest, mid, bid =>
    if b.id == bid && b.match_id == mid then ({ b with is_accepted := true } :: rest, true)
    else
      let r := markAccepted rest mid bid
      (b :: r.1, r.2)

/-- Model of `DatabaseManager.accept_bench(match_id, bench_id)`. -/
def accept_bench (db : DB) (match_id bench_id : Nat) : DB × Bool :=
  let r := markAccepted db.benches match_id bench_id
  ({ db with benches := r.1 }, r.2)

/-- Model of `DatabaseManager.get_accepted_bench(match_id)`. -/
def get_accepted_bench (db : DB) (match_id : Nat) : Option MeetingBench :=
  db.benches.find? fun b => b.match_id == match_id && b.is_accepted

/-! ## GeoMath: `_haversine` and `_calculate_search_zone` over `ℝ` -/

/-- Model of `math.radians`: degrees to radians. -/
noncomputable def radians (x : ℝ) : ℝ := x * (Real.pi / 180)

/-- Model of `OpenStreetMapService._haversine` (identical to
`DatabaseManager.calculate_distance`): great-circle distance in km on a
sphere of radius 6371 km. -/
noncomputable def haversine (lat1 lon1 lat2 lon2 : ℝ) : ℝ :=
  let R : ℝ := 6371
  let dlat := radians (lat2 - lat1)
  let dlon := radians (lon2 - lon1)
  let a := Real.sin (dlat / 2) ^ 2 +
    Real.cos (radians lat1) * Real.cos (radians lat2) * Real.sin (dlon / 2) ^ 2
  let c := 2 * Real.arcsin (Real.sqrt a)
  R * c

/-- Model of `OpenStreetMapService._calculate_search_zone`: arithmetic midpoint
as the center, radius `int((haversine/2 + 1) * 1000)` meters capped at
5000.  Python `int()` truncates toward zero; the argument here is
nonnegative (the haversine distance is nonnegative), so it is `⌊·⌋`. -/
noncomputable def calculate_search_zone (lat1 lon1 lat2 lon2 : ℝ) : ℝ × ℝ × ℤ :=
  let center_lat := (lat1 + lat2) / 2
  let center_lon := (lon1 + lon2) / 2
  let distance_km := haversine lat1 lon1 lat2 lon2
  let radius_km := distance_km / 2 + 1
  let radius_meters := ⌊radius_km * 1000⌋
  let max_radius_m : ℤ := 5000
  (center_lat, center_lon, min radius_meters max_radius_m)

/-! ## `_rank_benches` over `ℚ`, distance function as a parameter -/

/-- One element of the Overpass `elements` array: an id, a type, direct
coordinates (`lat`/`lon`, absent for way geometries), coordinates nested
under `center`, and free-form tags.  `none` models an absent field. -/
structure OSMElement where
  id : Nat
  type : String
  lat : Option ℚ
  lon : Option ℚ
  center_lat : Option ℚ
  center_lon : Option ℚ
  tags : List (String × String)
deriving DecidableEq, Repr

/-- Python `x or y` on an optional number: `x` unless `x` is falsy
(`None` or `0`), else `y`. -/
def pyOr (x y : Option ℚ) : Option ℚ :=
  if x = none ∨ x = some 0 then y else x

/-- Python truthiness of an optional number: `None` and `0` are falsy. -/
def pyTruthy (x : Option ℚ) : Bool :=
  decide (x ≠ none ∧ x ≠ some 0)

/-- Python `round(x, n)`: round half to even at the n-th decimal. -/
def pyRound (x : ℚ) (n : Nat) : ℚ :=
  let y := x * 10 ^ n
  let f : ℤ := ⌊y⌋
  let r : ℤ :=
    if y - f < 1 / 2 then f
    else if (1 : ℚ) / 2 < y - f then f + 1
    else if f % 2 = 0 then f else f + 1
  (r : ℚ) / 10 ^ n

/-- One entry of the ranked output dict of `_rank_benches`. -/
structure RankedBench where
  osm_id : String
  osm_type : String
  lat : ℚ
  lon : ℚ
  distance_user_a_km : ℚ
  distance_user_b_km : ℚ
  total_distance_km : ℚ
  fairness_diff_km : ℚ
  score : ℚ
  tags : List (String × String)
deriving DecidableEq, Repr

/-- Coordinate resolution of `_rank_benches`:
`b_lat = bench.get('lat') or bench.get('center', {}).get('lat')` (same
for `lon`), and the bench is kept only when `b_lat and b_lon` is truthy. -/
def resolveCoords (b : OSMElement) : Option (ℚ × ℚ) :=
  let b_lat := pyOr b.lat b.center_lat
  let b_lon := pyOr b.lon b.center_lon
  if pyTruthy b_lat && pyTruthy b_lon then some (b_lat.getD 0, b_lon.getD 0)
  else none

/-- The loop body of `_rank_benches` for one element, together with the
unrounded score it was computed from.  `dist` stands for the call
`cls._haversine`. -/
def rankEntry (dist : ℚ → ℚ → ℚ → ℚ → ℚ) (lat1 lon1 lat2 lon2 : ℚ) (b : OSMElement) :
    Option (RankedBench × ℚ) :=
  match resolveCoords b with
  | none => none
  | some (b_lat, b_lon) =>
    let d1 := dist b_lat b_lon lat1 lon1
    let d2 := dist b_lat b_lon lat2 lon2
    let total_distance := d1 + d2
    let distance_diff := |d1 - d2|
    let score := total_distance + distance_diff * (1 / 2)
    some ({ osm_id := toString b.id
            osm_type := b.type
            lat := pyRound b_lat 6
            lon := pyRound b_lon 6
            distance_user_a_km := pyRound d1 3
            distance_user_b_km := pyRound d2 3
            total_distance_km := pyRound total_distance 3
            fairness_diff_km := pyRound distance_diff 3
            score := pyRound score 3
            tags := b.tags }, score)

/-- The scored list built by the loop of `_rank_benches`, in input
order, before sorting. -/
def scoredList (dist : ℚ → ℚ → ℚ → ℚ → ℚ) (benches : List OSMElement)
    (lat1 lon1 lat2 lon2 : ℚ) : List RankedBench :=
  (benches.filterMap (rankEntry dist lat1 lon1 lat2 lon2)).map (·.1)

/-- Model of `OpenStreetMapService._rank_benches`: score each resolvable element
and stable-sort by the `'score'` dict field — which holds the value
already rounded to 3 decimals (`ranked.sort(key=lambda x: x['score'])`
runs after `'score': round(score, 3)` was stored).  Python `list.sort`
is a stable sort; any stable sort computes the same output, so it is
modelled with `List.insertionSort` (stable, see the check in
Mathlib.Data.List.Sort). -/
def rank_benches (dist : ℚ → ℚ → ℚ → ℚ → ℚ) (benches : List OSMElement)
    (lat1 lon1 lat2 lon2 : ℚ) : List RankedBench :=
  List.insertionSort (fun a b => a.score ≤ b.score)
    (scoredList dist benches lat1 lon1 lat2 lon2)

/-- Modelled from the spec: the ranking §4.3 describes — identical
scoring and presentation rounding, but sorted on the *unrounded* score
(“sort on unrounded values, round only for output”).  Used only to
compare against `rank_benches`. -/
def rank_benches_spec (dist : ℚ → ℚ → ℚ → ℚ → ℚ) (benches : List OSMElement)
    (lat1 lon1 lat2 lon2 : ℚ) : List RankedBench :=
  (List.insertionSort (fun a b => a.2 ≤ b.2)
    (benches.filterMap (rankEntry dist lat1 lon1 lat2 lon2))).map (·.1)

/-! ## `_query_overpass` and `find_benches_for_match` -/

/-- Body of an HTTP response as the JSON decoding step sees it:
`malformed` makes `response.json()` raise `ValueError`; otherwise the
document may or may not carry an `elements` array
(`data.get('elements', [])`). -/
inductive JsonBody where
  | malformed
  | json (elements : Option (List OSMElement))
deriving DecidableEq, Repr

/-- Outcome of the one `requests.get` call to the Overpass endpoint:
timeout (`requests.exceptions.Timeout`), other transport failure
(`requests.exceptions.RequestException`), or a response whose status is
or is not successful (`response.raise_for_status()` raises an
`HTTPError`, a `RequestException`, on non-success). -/
inductive HttpResult where
  | timeout
  | transportFailure
  | response (statusOk : Bool) (body : JsonBody)
deriving DecidableEq, Repr

/-- Model of `OpenStreetMapService._query_overpass`: every failure mode of the
external call is caught and becomes `[]`. -/
def query_overpass (r : HttpResult) : List OSMElement :=
  match r with
  | .timeout => []
  | .transportFailure => []
  | .response false _ => []
  | .response true .malformed => []
  | .response true (.json none) => []
  | .response true (.json (some elements)) => elements

/-- Model of `OpenStreetMapService.find_benches_for_match`, parameterized by the
outcome `r` of the network call and the distance function: query, then
return `[]` when no candidates, else rank and truncate to `limit`. -/
def find_benches_for_match (r : HttpResult) (dist : ℚ → ℚ → ℚ → ℚ → ℚ)
    (lat1 lon1 lat2 lon2 : ℚ) (limit : Nat) : List RankedBench :=
  let benches := query_overpass r
  if benches.isEmpty then []
  else (rank_benches dist benches lat1 lon1 lat2 lon2).take limit

/-! ## `suggest_benches_for_match` -/

/-- The `db.add(schemas.MeetingBench(...))` loop: one new row per
ranked result that passed the existence check, with consecutive
autoincrement ids.  Only modelled columns are kept; `is_accepted`
defaults to `False`. -/
def mkRows (match_id : Nat) : Nat → List RankedBench → List MeetingBench
  | _, [] => []
  | nid, b :: rest => ⟨nid, match_id, b.osm_id, false⟩ :: mkRows match_id (nid + 1) rest

/-- The `db.query(schemas.MeetingBench).filter_by(match_id=...,
osm_id=...).first()` existence check (`autoflush=False`: it sees only
the rows committed before the call). -/
def bench_exists (db : DB) (match_id : Nat) (osm_id : String) : Bool :=
  (db.benches.find? fun row => row.match_id == match_id && row.osm_id == osm_id).isSome

/-- Model of `DatabaseManager.suggest_benches_for_match`, parameterized by the
outcome of the network call inside `find_benches_for_match`: validate
the match id, fetch-and-rank, return `[]` when nothing was found, else
persist the missing rows and return the fetched ranked list. -/
def suggest_benches_for_match (db : DB) (match_id : Nat) (r : HttpResult)
    (dist : ℚ → ℚ → ℚ → ℚ → ℚ) (lat1 lon1 lat2 lon2 : ℚ) (limit : Nat) :
    DB × List RankedBench :=
  match db.«matches».find? (fun m => m.id == match_id) with
  | none => (db, [])
  | some _ =>
    let benches := find_benches_for_match r dist lat1 lon1 lat2 lon2 limit
    if benches.isEmpty then (db, [])
    else
      let missing := benches.filter fun b => !bench_exists db match_id b.osm_id
      ({ db with benches := db.benches ++ mkRows match_id db.next_bench_id missing,
                 next_bench_id := db.next_bench_id + missing.length }, benches)

/-! ## Theorems -/

/-- C10: for every coordinate pair, `_haversine` of a point with itself
is exactly 0, and `_haversine` is symmetric in its two points. -/
theorem haversine_self_zero_and_symm (lat lon lat' lon' : ℝ) :
    haversine lat lon lat lon = 0 ∧
    haversine lat lon lat' lon' = haversine lat' lon' lat lon := by
  constructor
  · simp [haversine, radians]
  · simp only [haversine, radians]
    have h1 : (lat - lat') * (Real.pi / 180) / 2 = -((lat' - lat) * (Real.pi / 180) / 2) := by
      ring
    have h2 : (lon - lon') * (Real.pi / 180) / 2 = -((lon' - lon) * (Real.pi / 180) / 2) := by
      ring
    rw [h1, h2, Real.sin_neg, Real.sin_neg]
    ring_nf

/-- C8: `_calculate_search_zone` returns the arithmetic midpoint as the
center and `min ⌊(haversine/2 + 1)·1000⌋ 5000` as the radius, which is
always at most 5000 meters. -/
theorem calculate_search_zone_midpoint_and_radius_capped (lat1 lon1 lat2 lon2 : ℝ) :
    (calculate_search_zone lat1 lon1 lat2 lon2).1 = (lat1 + lat2) / 2 ∧
    (calculate_search_zone lat1 lon1 lat2 lon2).2.1 = (lon1 + lon2) / 2 ∧
    (calculate_search_zone lat1 lon1 lat2 lon2).2.2 =
      min ⌊(haversine lat1 lon1 lat2 lon2 / 2 + 1) * 1000⌋ 5000 ∧
    (calculate_search_zone lat1 lon1 lat2 lon2).2.2 ≤ 5000 :=
  ⟨rfl, rfl, rfl, min_le_right _ _⟩

/-- C9: `_query_overpass` returns `[]` on timeout, transport failure,
non-success status, malformed JSON, and missing `elements`;
`find_benches_for_match` then returns `[]` in each of these cases and
on an empty candidate list; `suggest_benches_for_match` degrades the
same way without touching the database. -/
theorem overpass_failures_degrade_to_empty :
    (query_overpass .timeout = [] ∧ query_overpass .transportFailure = [] ∧
      (∀ body, query_overpass (.response false body) = []) ∧
      query_overpass (.response true .malformed) = [] ∧
      query_overpass (.response true (.json none)) = []) ∧
    (∀ dist lat1 lon1 lat2 lon2 limit,
      find_benches_for_match .timeout dist lat1 lon1 lat2 lon2 limit = [] ∧
      find_benches_for_match .transportFailure dist lat1 lon1 lat2 lon2 limit = [] ∧
      (∀ body, find_benches_for_match (.response false body) dist lat1 lon1 lat2 lon2 limit = []) ∧
      find_benches_for_match (.response true .malformed) dist lat1 lon1 lat2 lon2 limit = [] ∧
      find_benches_for_match (.response true (.json (some []))) dist lat1 lon1 lat2 lon2 limit
        = []) ∧
    (∀ db match_id dist lat1 lon1 lat2 lon2 limit,
      suggest_benches_for_match db match_id .timeout dist lat1 lon1 lat2 lon2 limit = (db, []) ∧
      suggest_benches_for_match db match_id (.response true (.json (some []))) dist
        lat1 lon1 lat2 lon2 limit = (db, [])) := by
  refine ⟨⟨rfl, rfl, fun body => rfl, rfl, rfl⟩, ?_, ?_⟩
  · intro dist lat1 lon1 lat2 lon2 limit
    exact ⟨rfl, rfl, fun body => rfl, rfl, rfl⟩
  · intro db match_id dist lat1 lon1 lat2 lon2 limit
    constructor <;>
      cases h : db.«matches».find? (fun m => m.id == match_id) <;>
        simp [suggest_benches_for_match, h, find_benches_for_match, query_overpass]

/-- A state with one match (id 1) and two persisted, not yet accepted
suggestions (ids 1 and 2) for it. -/
def acceptCexDB : DB :=
  ⟨[], [⟨1, 1, 2, true⟩], [⟨1, 1, "a", false⟩, ⟨2, 1, "b", false⟩], 2, 3⟩

/-- C4 counterexample: accepting suggestion 1 and then suggestion 2 of
the same match leaves **two** rows with `is_accepted = true` for that
match — `accept_bench` performs no revocation, so the at-most-one
invariant asserted by the claim fails after this sequence of accepts. -/
theorem accept_bench_two_accepted_rows :
    ((accept_bench (accept_bench acceptCexDB 1 1).1 1 2).1.benches.filter
        (fun b => b.match_id == 1 && b.is_accepted)).length = 2 ∧
    (accept_bench acceptCexDB 1 1).2 = true ∧
    (accept_bench (accept_bench acceptCexDB 1 1).1 1 2).2 = true := by
  decide

/-- Lemma: `markAccepted` only ever turns `is_accepted` on; any row accepted
before is still present and accepted afterwards. -/
lemma markAccepted_preserves_accepted (l : List MeetingBench) (mid bid : Nat)
    (b : MeetingBench) (hb : b ∈ l) (hacc : b.is_accepted = true) :
    ∃ b' ∈ (markAccepted l mid bid).1,
      b'.id = b.id ∧ b'.match_id = b.match_id ∧ b'.osm_id = b.osm_id ∧
      b'.is_accepted = true := by
  induction l with
  | nil => cases hb
  | cons hd tl ih =>
    simp only [markAccepted]
    by_cases h : (hd.id == bid && hd.match_id == mid) = true
    · rw [if_pos h]
      rcases List.mem_cons.mp hb with rfl | htl
      · exact ⟨{ b with is_accepted := true }, List.mem_cons_self _ _, rfl, rfl, rfl, rfl⟩
      · exact ⟨b, List.mem_cons_of_mem _ htl, rfl, rfl, rfl, hacc⟩
    · rw [if_neg h]
      rcases List.mem_cons.mp hb with rfl | htl
      · exact ⟨b, List.mem_cons_self _ _, rfl, rfl, rfl, hacc⟩
      · obtain ⟨b', hb', h1, h2, h3, h4⟩ := ih htl
        exact ⟨b', List.mem_cons_of_mem _ hb', h1, h2, h3, h4⟩

/-- C4 amended: `accept_bench` marks the addressed suggestion accepted
but never revokes a prior acceptance — every row that was accepted
before the call is still present and accepted (same id, match id and
external key) afterwards, so accepted rows per match can accumulate. -/
theorem accept_bench_preserves_prior_acceptance (db : DB) (match_id bench_id : Nat)
    (b : MeetingBench) (hb : b ∈ db.benches) (hacc : b.is_accepted = true) :
    ∃ b' ∈ (accept_bench db match_id bench_id).1.benches,
      b'.id = b.id ∧ b'.match_id = b.match_id ∧ b'.osm_id = b.osm_id ∧
      b'.is_accepted = true :=
  markAccepted_preserves_accepted db.benches match_id bench_id b hb hacc

/-- Witness for C4's amended theorem at a concrete state: a row already
accepted for match 1 survives a later `accept_bench` call for the same
match. -/
theorem accept_bench_preserves_prior_acceptance_witness :
    ∃ b' ∈ (accept_bench ⟨[], [⟨1, 1, 2, true⟩],
        [⟨1, 1, "a", true⟩, ⟨2, 1, "b", false⟩], 2, 3⟩ 1 2).1.benches,
      b'.id = 1 ∧ b'.match_id = 1 ∧ b'.osm_id = "a" ∧ b'.is_accepted = true :=
  accept_bench_preserves_prior_acceptance
    ⟨[], [⟨1, 1, 2, true⟩], [⟨1, 1, "a", true⟩, ⟨2, 1, "b", false⟩], 2, 3⟩
    1 2 ⟨1, 1, "a", true⟩ (by decide) rfl

/-- Every ranked result fed to `mkRows` yields a persisted row carrying
its external id and the match id. -/
lemma mem_mkRows (mid : Nat) (l : List RankedBench) (b : RankedBench) (hb : b ∈ l) :
    ∀ nid, ∃ row ∈ mkRows mid nid l, row.match_id = mid ∧ row.osm_id = b.osm_id := by
  induction l with
  | nil => cases hb
  | cons hd tl ih =>
    intro nid
    simp only [mkRows]
    rcases List.mem_cons.mp hb with rfl | htl
    · exact ⟨⟨nid, mid, b.osm_id, false⟩, List.mem_cons_self _ _, rfl, rfl⟩
    · obtain ⟨row, hrow, h1, h2⟩ := ih htl (nid + 1)
      exact ⟨row, List.mem_cons_of_mem _ hrow, h1, h2⟩

/-- After appending the rows `suggest_benches_for_match` builds for the
results that were missing, every fetched result has a keyed row. -/
lemma keyed_row_exists (old : List MeetingBench) (mid nid : Nat)
    (benches : List RankedBench) (b : RankedBench) (hb : b ∈ benches) :
    ∃ row ∈ old ++ mkRows mid nid (benches.filter fun x =>
        !(old.find? fun row => row.match_id == mid && row.osm_id == x.osm_id).isSome),
      (row.match_id == mid && row.osm_id == b.osm_id) = true := by
  by_cases hex :
      ((old.find? fun row => row.match_id == mid && row.osm_id == b.osm_id).isSome = true)
  · obtain ⟨row, hrow, hpred⟩ := List.find?_isSome.mp hex
    exact ⟨row, List.mem_append_left _ hrow, hpred⟩
  · have hmem : b ∈ benches.filter fun x =>
        !(old.find? fun row => row.match_id == mid && row.osm_id == x.osm_id).isSome := by
      refine List.mem_filter.mpr ⟨hb, ?_⟩
      simp only [Bool.not_eq_true] at hex
      simp [hex]
    obtain ⟨row, hrow, h1, h2⟩ := mem_mkRows mid _ b hmem nid
    exact ⟨row, List.mem_append_right _ hrow, by simp [h1, h2]⟩

/-- In any state whose rows are the old rows plus the rows persisted for
the missing results, no fetched result is missing any more. -/
lemma suggest_missing_filter_empty (db : DB) (mid : Nat) (benches : List RankedBench)
    (db1 : DB)
    (h1 : db1.benches = db.benches ++ mkRows mid db.next_bench_id
      (benches.filter fun x => !bench_exists db mid x.osm_id)) :
    (benches.filter fun b => !bench_exists db1 mid b.osm_id) = [] := by
  rw [List.filter_eq_nil_iff]
  intro b hb
  have hex : bench_exists db1 mid b.osm_id = true := by
    rw [bench_exists, h1]
    obtain ⟨row, hrow, hpred⟩ := keyed_row_exists db.benches mid db.next_bench_id benches b hb
    exact List.find?_isSome.mpr ⟨row, hrow, hpred⟩
  simp [hex]

/-- Unfolding equation for `suggest_benches_for_match` when the match
exists and the fetch produced candidates. -/
lemma suggest_eq_of_found (db : DB) (mid : Nat) (r : HttpResult)
    (dist : ℚ → ℚ → ℚ → ℚ → ℚ) (lat1 lon1 lat2 lon2 : ℚ) (limit : Nat) (m : Match)
    (hm : db.«matches».find? (fun x => x.id == mid) = some m)
    (hne : (find_benches_for_match r dist lat1 lon1 lat2 lon2 limit).isEmpty = false) :
    suggest_benches_for_match db mid r dist lat1 lon1 lat2 lon2 limit =
      ({ db with
          benches := db.benches ++ mkRows mid db.next_bench_id
            ((find_benches_for_match r dist lat1 lon1 lat2 lon2 limit).filter fun b =>
              !bench_exists db mid b.osm_id),
          next_bench_id := db.next_bench_id +
            ((find_benches_for_match r dist lat1 lon1 lat2 lon2 limit).filter fun b =>
              !bench_exists db mid b.osm_id).length },
        find_benches_for_match r dist lat1 lon1 lat2 lon2 limit) := by
  unfold suggest_benches_for_match
  rw [hm]
  simp [hne]

/-- C7: running `suggest_benches_for_match` a second time with identical
inputs changes nothing: every fetched result already has its
(match_id, osm_id)-keyed row after the first call, so the second call
persists no row (same list of rows, hence the same count). -/
theorem suggest_benches_twice_no_duplicate_rows (db : DB) (mid : Nat) (r : HttpResult)
    (dist : ℚ → ℚ → ℚ → ℚ → ℚ) (lat1 lon1 lat2 lon2 : ℚ) (limit : Nat) :
    (suggest_benches_for_match
        (suggest_benches_for_match db mid r dist lat1 lon1 lat2 lon2 limit).1
        mid r dist lat1 lon1 lat2 lon2 limit).1.benches
      = (suggest_benches_for_match db mid r dist lat1 lon1 lat2 lon2 limit).1.benches := by
  cases hm : db.«matches».find? (fun x => x.id == mid) with
  | none =>
    have h1 : suggest_benches_for_match db mid r dist lat1 lon1 lat2 lon2 limit = (db, []) := by
      unfold suggest_benches_for_match
      rw [hm]
    rw [h1]
    unfold suggest_benches_for_match
    rw [hm]
  | some m =>
    by_cases hne : ((find_benches_for_match r dist lat1 lon1 lat2 lon2 limit).isEmpty = true)
    · have h1 : suggest_benches_for_match db mid r dist lat1 lon1 lat2 lon2 limit = (db, []) := by
        unfold suggest_benches_for_match
        rw [hm]
        simp [hne]
      rw [h1, h1]
    · rw [Bool.not_eq_true] at hne
      have e1 := suggest_eq_of_found db mid r dist lat1 lon1 lat2 lon2 limit m hm hne
      have hb1 : (suggest_benches_for_match db mid r dist lat1 lon1 lat2 lon2 limit).1.benches
          = db.benches ++ mkRows mid db.next_bench_id
            ((find_benches_for_match r dist lat1 lon1 lat2 lon2 limit).filter fun x =>
              !bench_exists db mid x.osm_id) := by
        rw [e1]
      have hm2 : (suggest_benches_for_match db mid r dist lat1 lon1 lat2 lon2
          limit).1.«matches».find? (fun x => x.id == mid) = some m := by
        rw [e1]
        exact hm
      have hfe := suggest_missing_filter_empty db mid
        (find_benches_for_match r dist lat1 lon1 lat2 lon2 limit) _ hb1
      rw [suggest_eq_of_found _ mid r dist lat1 lon1 lat2 lon2 limit m hm2 hne]
      simp only [hfe, mkRows, List.append_nil]

/-- A distance function for concrete checks of the ranking pipeline
(stands for `_haversine` where only the discrete pipeline matters). -/
def distConst : ℚ → ℚ → ℚ → ℚ → ℚ := fun _ _ _ _ => 1

/-- A state with match 1 and one previously persisted suggestion
(external id "old") for it. -/
def suggestCexDB : DB := ⟨[], [⟨1, 1, 2, true⟩], [⟨0, 1, "old", false⟩], 2, 1⟩

/-- A fetch outcome whose only candidate has external id 5. -/
def suggestCexFetch : HttpResult :=
  .response true (.json (some [⟨5, "node", some 1, some 2, none, none, []⟩]))

/-- C5 counterexample: the match has a previously-persisted suggestion
"old", the current fetch returns only candidate "5", and the call
returns `["5"]` — the persisted suggestion "old" is **not** part of the
returned list, contradicting the claim that the returned list includes
previously-persisted suggestions beyond the current fetch. -/
theorem suggest_omits_previously_persisted :
    suggestCexDB.benches.map (·.osm_id) = ["old"] ∧
    (suggest_benches_for_match suggestCexDB 1 suggestCexFetch distConst 0 0 0 0
        10).2.map (·.osm_id) = ["5"] :=
  ⟨rfl, rfl⟩

/-- C5 amended: when the match exists, `suggest_benches_for_match`
returns exactly the ranked list of the **current** fetch (truncated to
`limit` inside `find_benches_for_match`); each returned result has a
keyed persisted row after the call, but previously-persisted
suggestions that the current fetch did not return are not included. -/
theorem suggest_returns_current_fetch (db : DB) (mid : Nat) (r : HttpResult)
    (dist : ℚ → ℚ → ℚ → ℚ → ℚ) (lat1 lon1 lat2 lon2 : ℚ) (limit : Nat)
    (hm : (db.«matches».find? fun x => x.id == mid).isSome = true) :
    (suggest_benches_for_match db mid r dist lat1 lon1 lat2 lon2 limit).2
      = find_benches_for_match r dist lat1 lon1 lat2 lon2 limit ∧
    ∀ b ∈ (suggest_benches_for_match db mid r dist lat1 lon1 lat2 lon2 limit).2,
      ∃ row ∈ (suggest_benches_for_match db mid r dist lat1 lon1 lat2 lon2 limit).1.benches,
        row.match_id = mid ∧ row.osm_id = b.osm_id := by
  obtain ⟨m, hm'⟩ := Option.isSome_iff_exists.mp hm
  by_cases hne : ((find_benches_for_match r dist lat1 lon1 lat2 lon2 limit).isEmpty = true)
  · have hempty : find_benches_for_match r dist lat1 lon1 lat2 lon2 limit = [] :=
      List.isEmpty_iff.mp hne
    have e0 : suggest_benches_for_match db mid r dist lat1 lon1 lat2 lon2 limit = (db, []) := by
      unfold suggest_benches_for_match
      rw [hm']
      simp [hne]
    rw [e0, hempty]
    exact ⟨rfl, by simp⟩
  · rw [Bool.not_eq_true] at hne
    have e1 := suggest_eq_of_found db mid r dist lat1 lon1 lat2 lon2 limit m hm' hne
    constructor
    · rw [e1]
    · intro b hb
      rw [e1] at hb ⊢
      obtain ⟨row, hrow, hpred⟩ :=
        keyed_row_exists db.benches mid db.next_bench_id _ b hb
      refine ⟨row, hrow, ?_⟩
      simpa [Bool.and_eq_true, beq_iff_eq] using hpred

/-- Witness for C5's amended theorem at the counterexample state. -/
theorem suggest_returns_current_fetch_witness :
    (suggest_benches_for_match suggestCexDB 1 suggestCexFetch distConst 0 0 0 0 10).2
      = find_benches_for_match suggestCexFetch distConst 0 0 0 0 10 ∧
    ∀ b ∈ (suggest_benches_for_match suggestCexDB 1 suggestCexFetch distConst 0 0 0 0 10).2,
      ∃ row ∈ (suggest_benches_for_match suggestCexDB 1 suggestCexFetch distConst
          0 0 0 0 10).1.benches,
        row.match_id = 1 ∧ row.osm_id = b.osm_id :=
  suggest_returns_current_fetch suggestCexDB 1 suggestCexFetch distConst 0 0 0 0 10 rfl

/-- A state with one active match (row id 7) between users 1 and 2 and
no swipes. -/
def dislikeCexDB : DB := ⟨[], [⟨7, 1, 2, true⟩], [], 8, 0⟩

/-- C1: user 1 dislikes user 2 while the active match row id 7 exists
for the pair — the match row is left untouched (still active, still
found by an active-match lookup) because `create_swipe` passes
`to_user_id = 2` where `get_match_between_users` expects the match id
(7); the call does return no match, as the claim states. -/
theorem create_swipe_dislike_leaves_match_active :
    (create_swipe dislikeCexDB 1 2 "dislike").1.«matches» = [⟨7, 1, 2, true⟩] ∧
    (create_swipe dislikeCexDB 1 2 "dislike").2.2 = none ∧
    get_match_between_users (create_swipe dislikeCexDB 1 2 "dislike").1 1 7
      = some ⟨7, 1, 2, true⟩ := by
  decide

/-- A state with an unrelated active match whose row id 7 collides with
user id 7: it is a match between users 2 and 9. -/
def mutualLikeCexDB : DB := ⟨[], [⟨7, 2, 9, true⟩], [], 8, 0⟩

/-- C2 counterexample: users 7 and 2 (no swipes, no match between them)
exchange likes, but because the pre-existing match row id 7 (between
users 2 and 9) is found by `get_match_between_users(2, 7)`, **no**
match is created for the pair and the second call returns the
unrelated (2, 9) match instead of a canonical (2, 7) one. -/
theorem mutual_like_no_match_created_cex :
    (create_swipe (create_swipe mutualLikeCexDB 7 2 "like").1 2 7 "like").1.«matches»
      = [⟨7, 2, 9, true⟩] ∧
    (create_swipe (create_swipe mutualLikeCexDB 7 2 "like").1 2 7 "like").2.2
      = some ⟨7, 2, 9, true⟩ := by
  decide

/-- One mutual-like exchange, first `A → B` then `B → A`: assuming no
prior swipes between the pair and no active match row whose id equals
`A` while involving `B`, the second like creates and returns exactly
one new canonical match row. -/
lemma like_then_like (db : DB) (A B : Nat) (hAB : A ≠ B)
    (hswAB : ∀ s ∈ db.swipes, ¬(s.from_user_id = A ∧ s.to_user_id = B))
    (hswBA : ∀ s ∈ db.swipes, ¬(s.from_user_id = B ∧ s.to_user_id = A))
    (hidA : ∀ m ∈ db.«matches»,
      ¬(m.id = A ∧ m.is_active = true ∧ (m.user_one_id = B ∨ m.user_two_id = B))) :
    (create_swipe db A B "like").2.2 = none ∧
    (create_swipe (create_swipe db A B "like").1 B A "like").1.«matches»
      = db.«matches» ++ [⟨db.next_match_id, min B A, max B A, true⟩] ∧
    (create_swipe (create_swipe db A B "like").1 B A "like").2.2
      = some ⟨db.next_match_id, min B A, max B A, true⟩ := by
  have hf1 : db.swipes.find? (fun s => s.from_user_id == A && s.to_user_id == B) = none := by
    rw [List.find?_eq_none]
    intro s hs hcontra
    simp only [Bool.and_eq_true, beq_iff_eq] at hcontra
    exact hswAB s hs hcontra
  have hrev1 : (db.swipes ++ [(⟨A, B, "like"⟩ : Swipe)]).find?
      (fun s => s.from_user_id == B && s.to_user_id == A && s.type == "like") = none := by
    rw [List.find?_eq_none]
    intro s hs hcontra
    simp only [Bool.and_eq_true, beq_iff_eq] at hcontra
    rcases List.mem_append.mp hs with h | h
    · exact hswBA s h ⟨hcontra.1.1, hcontra.1.2⟩
    · simp only [List.mem_singleton] at h
      rw [h] at hcontra
      exact hAB hcontra.1.1
  have e1 : create_swipe db A B "like"
      = create_swipe_matchPhase { db with swipes := db.swipes ++ [(⟨A, B, "like"⟩ : Swipe)] }
          (⟨A, B, "like"⟩ : Swipe) A B "like" := by
    unfold create_swipe
    rw [hf1]
  have e2 : create_swipe_matchPhase { db with swipes := db.swipes ++ [(⟨A, B, "like"⟩ : Swipe)] }
        (⟨A, B, "like"⟩ : Swipe) A B "like"
      = ({ db with swipes := db.swipes ++ [(⟨A, B, "like"⟩ : Swipe)] }, (⟨A, B, "like"⟩ : Swipe), none) := by
    unfold create_swipe_matchPhase
    rw [show ({ db with swipes := db.swipes ++ [(⟨A, B, "like"⟩ : Swipe)] } : DB).swipes
        = db.swipes ++ [(⟨A, B, "like"⟩ : Swipe)] from rfl, hrev1]
    rfl
  have hf2 : (db.swipes ++ [(⟨A, B, "like"⟩ : Swipe)]).find?
      (fun s => s.from_user_id == B && s.to_user_id == A) = none := by
    rw [List.find?_eq_none]
    intro s hs hcontra
    simp only [Bool.and_eq_true, beq_iff_eq] at hcontra
    rcases List.mem_append.mp hs with h | h
    · exact hswBA s h hcontra
    · simp only [List.mem_singleton] at h
      rw [h] at hcontra
      exact hAB hcontra.1
  have hf1like : db.swipes.find?
      (fun s => s.from_user_id == A && s.to_user_id == B && s.type == "like") = none := by
    rw [List.find?_eq_none]
    intro s hs hcontra
    simp only [Bool.and_eq_true, beq_iff_eq] at hcontra
    exact hswAB s hs ⟨hcontra.1.1, hcontra.1.2⟩
  have hrev2 : ((db.swipes ++ [(⟨A, B, "like"⟩ : Swipe)]) ++ [(⟨B, A, "like"⟩ : Swipe)]).find?
      (fun s => s.from_user_id == A && s.to_user_id == B && s.type == "like")
      = some (⟨A, B, "like"⟩ : Swipe) := by
    rw [List.find?_append, List.find?_append, hf1like]
    simp [List.find?_cons]
  have hgm : get_match_between_users
      ({ { db with swipes := db.swipes ++ [(⟨A, B, "like"⟩ : Swipe)] } with
        swipes := (db.swipes ++ [(⟨A, B, "like"⟩ : Swipe)]) ++ [(⟨B, A, "like"⟩ : Swipe)] } : DB) B A = none := by
    show db.«matches».find? _ = none
    rw [List.find?_eq_none]
    intro m hm hcontra
    simp only [Bool.and_eq_true, Bool.or_eq_true, beq_iff_eq] at hcontra
    exact hidA m hm ⟨hcontra.1.1, hcontra.1.2, hcontra.2⟩
  have e3 : create_swipe { db with swipes := db.swipes ++ [(⟨A, B, "like"⟩ : Swipe)] } B A "like"
      = create_swipe_matchPhase
          { db with swipes := (db.swipes ++ [(⟨A, B, "like"⟩ : Swipe)]) ++ [(⟨B, A, "like"⟩ : Swipe)] }
          (⟨B, A, "like"⟩ : Swipe) B A "like" := by
    unfold create_swipe
    rw [show ({ db with swipes := db.swipes ++ [(⟨A, B, "like"⟩ : Swipe)] } : DB).swipes
        = db.swipes ++ [(⟨A, B, "like"⟩ : Swipe)] from rfl, hf2]
  have e4 : create_swipe_matchPhase
        { db with swipes := (db.swipes ++ [(⟨A, B, "like"⟩ : Swipe)]) ++ [(⟨B, A, "like"⟩ : Swipe)] }
        (⟨B, A, "like"⟩ : Swipe) B A "like"
      = ({ db with
            swipes := (db.swipes ++ [(⟨A, B, "like"⟩ : Swipe)]) ++ [(⟨B, A, "like"⟩ : Swipe)],
            «matches» := db.«matches» ++ [⟨db.next_match_id, min B A, max B A, true⟩],
            next_match_id := db.next_match_id + 1 },
          (⟨B, A, "like"⟩ : Swipe), some ⟨db.next_match_id, min B A, max B A, true⟩) := by
    unfold create_swipe_matchPhase
    rw [show ({ db with
          swipes := (db.swipes ++ [(⟨A, B, "like"⟩ : Swipe)]) ++ [(⟨B, A, "like"⟩ : Swipe)] } : DB).swipes
        = (db.swipes ++ [(⟨A, B, "like"⟩ : Swipe)]) ++ [(⟨B, A, "like"⟩ : Swipe)] from rfl, hrev2, hgm]
    rfl
  refine ⟨?_, ?_, ?_⟩
  · rw [e1, e2]
  · rw [e1, e2]
    show (create_swipe { db with swipes := db.swipes ++ [(⟨A, B, "like"⟩ : Swipe)] } B A "like").1.«matches»
        = _
    rw [e3, e4]
  · rw [e1, e2]
    show (create_swipe { db with swipes := db.swipes ++ [(⟨A, B, "like"⟩ : Swipe)] } B A "like").2.2 = _
    rw [e3, e4]

/-- C2 amended: for distinct users `A`, `B` with no swipes between them
and no match between them, **and provided no unrelated active match row
has id `A` involving `B` or id `B` involving `A`** (the collision the
counterexample exploits), like then reciprocal like creates exactly one
new Match with canonically ordered ids, returned by the second call;
swapping which user swipes first gives the same single canonical match. -/
theorem mutual_like_creates_one_canonical_match (db : DB) (A B : Nat) (hAB : A ≠ B)
    (hswAB : ∀ s ∈ db.swipes, ¬(s.from_user_id = A ∧ s.to_user_id = B))
    (hswBA : ∀ s ∈ db.swipes, ¬(s.from_user_id = B ∧ s.to_user_id = A))
    (hnomatch : ∀ m ∈ db.«matches»,
      ¬(m.user_one_id = min A B ∧ m.user_two_id = max A B))
    (hidA : ∀ m ∈ db.«matches»,
      ¬(m.id = A ∧ m.is_active = true ∧ (m.user_one_id = B ∨ m.user_two_id = B)))
    (hidB : ∀ m ∈ db.«matches»,
      ¬(m.id = B ∧ m.is_active = true ∧ (m.user_one_id = A ∨ m.user_two_id = A))) :
    ((create_swipe db A B "like").2.2 = none ∧
      (create_swipe (create_swipe db A B "like").1 B A "like").1.«matches»
        = db.«matches» ++ [⟨db.next_match_id, min A B, max A B, true⟩] ∧
      (create_swipe (create_swipe db A B "like").1 B A "like").2.2
        = some ⟨db.next_match_id, min A B, max A B, true⟩) ∧
    ((create_swipe db B A "like").2.2 = none ∧
      (create_swipe (create_swipe db B A "like").1 A B "like").1.«matches»
        = db.«matches» ++ [⟨db.next_match_id, min A B, max A B, true⟩] ∧
      (create_swipe (create_swipe db B A "like").1 A B "like").2.2
        = some ⟨db.next_match_id, min A B, max A B, true⟩) := by
  constructor
  · obtain ⟨p1, p2, p3⟩ := like_then_like db A B hAB hswAB hswBA hidA
    rw [Nat.min_comm B A, Nat.max_comm B A] at p2 p3
    exact ⟨p1, p2, p3⟩
  · obtain ⟨p1, p2, p3⟩ := like_then_like db B A (Ne.symm hAB) hswBA hswAB hidB
    exact ⟨p1, p2, p3⟩

/-- Witness for C2's amended theorem on an empty database with users 2
and 1. -/
theorem mutual_like_creates_one_canonical_match_witness :
    (((create_swipe ⟨[], [], [], 1, 0⟩ 2 1 "like").2.2 = none ∧
      (create_swipe (create_swipe ⟨[], [], [], 1, 0⟩ 2 1 "like").1 1 2 "like").1.«matches»
        = [] ++ [⟨1, min 2 1, max 2 1, true⟩] ∧
      (create_swipe (create_swipe ⟨[], [], [], 1, 0⟩ 2 1 "like").1 1 2 "like").2.2
        = some ⟨1, min 2 1, max 2 1, true⟩) ∧
     ((create_swipe ⟨[], [], [], 1, 0⟩ 1 2 "like").2.2 = none ∧
      (create_swipe (create_swipe ⟨[], [], [], 1, 0⟩ 1 2 "like").1 2 1 "like").1.«matches»
        = [] ++ [⟨1, min 2 1, max 2 1, true⟩] ∧
      (create_swipe (create_swipe ⟨[], [], [], 1, 0⟩ 1 2 "like").1 2 1 "like").2.2
        = some ⟨1, min 2 1, max 2 1, true⟩)) :=
  mutual_like_creates_one_canonical_match ⟨[], [], [], 1, 0⟩ 2 1 (by decide)
    (by simp) (by simp) (by simp) (by simp) (by simp)

/-- C6: an element carrying the perfectly usable coordinates
latitude 0, longitude 10 (no nested center) is silently dropped by
`_rank_benches` — Python's `bench.get('lat') or ...` treats the float
`0.0` as missing — while the same element with latitude 5 is kept. -/
theorem rank_benches_drops_zero_coordinate :
    rank_benches distConst [⟨1, "node", some 0, some 10, none, none, []⟩] 0 0 0 0 = [] ∧
    (rank_benches distConst [⟨1, "node", some 5, some 10, none, none, []⟩] 0 0 0 0).length
      = 1 :=
  ⟨rfl, rfl⟩

/-- Evaluation of `pyRound` when the scaled value falls strictly below
the midpoint of its floor interval. -/
lemma pyRound_eq_of_floor_lo (x : ℚ) (n : Nat) (f : ℤ) (hf : ⌊x * 10 ^ n⌋ = f)
    (hlt : x * 10 ^ n - f < 1 / 2) : pyRound x n = f / 10 ^ n := by
  simp only [pyRound, hf]
  rw [if_pos hlt]

/-- Evaluation of `pyRound` when the scaled value falls strictly above
the midpoint of its floor interval. -/
lemma pyRound_eq_of_floor_hi (x : ℚ) (n : Nat) (f : ℤ) (hf : ⌊x * 10 ^ n⌋ = f)
    (hgt : 1 / 2 < x * 10 ^ n - f) : pyRound x n = (f + 1) / 10 ^ n := by
  simp only [pyRound, hf]
  rw [if_neg (by linarith), if_pos hgt]
  push_cast
  ring

/-- Distance function for the C3 counterexample: the distance is the
candidate's latitude, whatever the user coordinates (stands for
`_haversine`; the sorting logic is independent of the distance values). -/
def rankCexDist : ℚ → ℚ → ℚ → ℚ → ℚ := fun b_lat _ _ _ => b_lat

/-- First candidate: both users at distance 0.5002 km, unrounded score
1.0004, rounded score 1.000. -/
def rankCexE1 : OSMElement := ⟨1, "node", some (5002 / 10000), some 1, none, none, []⟩

/-- Second candidate: both users at distance 0.4998 km, unrounded score
0.9996, rounded score 1.000. -/
def rankCexE2 : OSMElement := ⟨2, "node", some (4998 / 10000), some 1, none, none, []⟩

/-- The ranked dict `_rank_benches` builds for `rankCexE1`. -/
def rankCexR1 : RankedBench :=
  ⟨"1", "node", 5002 / 10000, 1, 1 / 2, 1 / 2, 1, 0, 1, []⟩

/-- The ranked dict `_rank_benches` builds for `rankCexE2`. -/
def rankCexR2 : RankedBench :=
  ⟨"2", "node", 4998 / 10000, 1, 1 / 2, 1 / 2, 1, 0, 1, []⟩


/-- Evaluation of the ranking loop body on the first C3 candidate. -/
lemma rankCex_entry1 : rankEntry rankCexDist 0 0 0 0 rankCexE1
    = some (rankCexR1, 10004 / 10000) := by
  have hA : pyRound (2501 / 5000) 6 = 2501 / 5000 := by
    have hf : ⌊(2501 / 5000 : ℚ) * 10 ^ 6⌋ = 500200 := by
      rw [Int.floor_eq_iff] <;> norm_num
    rw [pyRound_eq_of_floor_lo _ _ _ hf (by norm_num)]
    norm_num
  have hB : pyRound 1 6 = 1 := by
    have hf : ⌊(1 : ℚ) * 10 ^ 6⌋ = 1000000 := by
      rw [Int.floor_eq_iff] <;> norm_num
    rw [pyRound_eq_of_floor_lo _ _ _ hf (by norm_num)]
    norm_num
  have hC : pyRound (2501 / 5000) 3 = 1 / 2 := by
    have hf : ⌊(2501 / 5000 : ℚ) * 10 ^ 3⌋ = 500 := by
      rw [Int.floor_eq_iff] <;> norm_num
    rw [pyRound_eq_of_floor_lo _ _ _ hf (by norm_num)]
    norm_num
  have hD : pyRound (2501 / 2500) 3 = 1 := by
    have hf : ⌊(2501 / 2500 : ℚ) * 10 ^ 3⌋ = 1000 := by
      rw [Int.floor_eq_iff] <;> norm_num
    rw [pyRound_eq_of_floor_lo _ _ _ hf (by norm_num)]
    norm_num
  have hE : pyRound 0 3 = 0 := by
    have hf : ⌊(0 : ℚ) * 10 ^ 3⌋ = 0 := by
      rw [Int.floor_eq_iff] <;> norm_num
    rw [pyRound_eq_of_floor_lo _ _ _ hf (by norm_num)]
    norm_num
  norm_num [rankEntry, rankCexE1, rankCexDist, resolveCoords, pyOr, pyTruthy, rankCexR1,
    hA, hB, hC, hD, hE, Option.some_ne_none, show toString (1:Nat) = "1" from rfl]

/-- Evaluation of the ranking loop body on the second C3 candidate. -/
lemma rankCex_entry2 : rankEntry rankCexDist 0 0 0 0 rankCexE2
    = some (rankCexR2, 9996 / 10000) := by
  have hA : pyRound (2499 / 5000) 6 = 2499 / 5000 := by
    have hf : ⌊(2499 / 5000 : ℚ) * 10 ^ 6⌋ = 499800 := by
      rw [Int.floor_eq_iff] <;> norm_num
    rw [pyRound_eq_of_floor_lo _ _ _ hf (by norm_num)]
    norm_num
  have hB : pyRound 1 6 = 1 := by
    have hf : ⌊(1 : ℚ) * 10 ^ 6⌋ = 1000000 := by
      rw [Int.floor_eq_iff] <;> norm_num
    rw [pyRound_eq_of_floor_lo _ _ _ hf (by norm_num)]
    norm_num
  have hC : pyRound (2499 / 5000) 3 = 1 / 2 := by
    have hf : ⌊(2499 / 5000 : ℚ) * 10 ^ 3⌋ = 499 := by
      rw [Int.floor_eq_iff] <;> norm_num
    rw [pyRound_eq_of_floor_hi _ _ _ hf (by norm_num)]
    norm_num
  have hD : pyRound (2499 / 2500) 3 = 1 := by
    have hf : ⌊(2499 / 2500 : ℚ) * 10 ^ 3⌋ = 999 := by
      rw [Int.floor_eq_iff] <;> norm_num
    rw [pyRound_eq_of_floor_hi _ _ _ hf (by norm_num)]
    norm_num
  have hE : pyRound 0 3 = 0 := by
    have hf : ⌊(0 : ℚ) * 10 ^ 3⌋ = 0 := by
      rw [Int.floor_eq_iff] <;> norm_num
    rw [pyRound_eq_of_floor_lo _ _ _ hf (by norm_num)]
    norm_num
  norm_num [rankEntry, rankCexE2, rankCexDist, resolveCoords, pyOr, pyTruthy, rankCexR2,
    hA, hB, hC, hD, hE, Option.some_ne_none, show toString (2:Nat) = "2" from rfl]

/-- C3 counterexample: the two candidates have distinct unrounded
scores 1.0004 and 0.9996 that both round to 1.000; `_rank_benches`
sorts on the rounded `'score'` field, so the output keeps input order
["1", "2"], while sorting on unrounded scores (the spec-modelled
`rank_benches_spec`) gives ["2", "1"] — rounding does change the order
relative to sorting on unrounded scores. -/
theorem rank_benches_sorts_on_rounded_score_cex :
    (rank_benches rankCexDist [rankCexE1, rankCexE2] 0 0 0 0).map (·.osm_id) = ["1", "2"] ∧
    (rank_benches_spec rankCexDist [rankCexE1, rankCexE2] 0 0 0 0).map (·.osm_id)
      = ["2", "1"] ∧
    (rankEntry rankCexDist 0 0 0 0 rankCexE1).map (·.2) = some (10004 / 10000) ∧
    (rankEntry rankCexDist 0 0 0 0 rankCexE2).map (·.2) = some (9996 / 10000) := by
  refine ⟨?_, ?_, by rw [rankCex_entry1]; rfl, by rw [rankCex_entry2]; rfl⟩
  · have hs : scoredList rankCexDist [rankCexE1, rankCexE2] 0 0 0 0
        = [rankCexR1, rankCexR2] := by
      simp [scoredList, rankCex_entry1, rankCex_entry2]
    rw [rank_benches, hs]
    norm_num [List.insertionSort, List.orderedInsert, rankCexR1, rankCexR2]
  · have hs : ([rankCexE1, rankCexE2].filterMap (rankEntry rankCexDist 0 0 0 0))
        = [(rankCexR1, 10004 / 10000), (rankCexR2, 9996 / 10000)] := by
      simp [rankCex_entry1, rankCex_entry2]
    rw [rank_benches_spec, hs]
    norm_num [List.insertionSort, List.orderedInsert, rankCexR1, rankCexR2]

/-- C3 amended: `_rank_benches` outputs a permutation of the scored
candidates sorted ascending by the **rounded** (3-decimal) score — the
sort key is the already-rounded `'score'` field, so for candidates
whose unrounded scores differ but round equal, the order can differ
from a sort on unrounded scores (see the counterexample). -/
theorem rank_benches_sorted_by_rounded_score (dist : ℚ → ℚ → ℚ → ℚ → ℚ)
    (benches : List OSMElement) (lat1 lon1 lat2 lon2 : ℚ) :
    ((rank_benches dist benches lat1 lon1 lat2 lon2).Pairwise fun a b => a.score ≤ b.score) ∧
    (rank_benches dist benches lat1 lon1 lat2 lon2).Perm
      (scoredList dist benches lat1 lon1 lat2 lon2) := by
  constructor
  · haveI : IsTotal RankedBench (fun a b => a.score ≤ b.score) :=
      ⟨fun a b => le_total a.score b.score⟩
    haveI : IsTrans RankedBench (fun a b => a.score ≤ b.score) :=
      ⟨fun _ _ _ hab hbc => le_trans hab hbc⟩
    exact List.sorted_insertionSort _ _
  · exact List.perm_insertionSort _ _
end BenchTalk
